import Mathlib

/-!
Shallow embedding of `crates/assistant_tools/src/web_search_tool.rs`:
the `WebSearchTool` invoker (`run`), the shared search computation it
fans out to its two consumers (the background textual-result task and
the `WebSearchToolCard`), and the card's view-state machine and header
rendering.
-/

namespace WebSearch

/-- Structured values, standing in for `serde_json::Value`: the raw tool
input and the serialized textual payload are modelled at this AST level
(the spec places the concrete wire format of the textual payload out of
scope). -/
inductive Json where
  | null : Json
  | bool (b : Bool) : Json
  | num (n : Int) : Json
  | str (s : String) : Json
  | arr (elems : List Json) : Json
  | obj (fields : List (String × Json)) : Json

/-- `WebSearchToolInput`: the single required string field `query`. -/
structure WebSearchToolInput where
  query : String
deriving DecidableEq, Repr

/-- Deserialization of `WebSearchToolInput` from a structured value
(`serde_json::from_value`): the value must be an object carrying a
string under the key `query`. -/
def fromValueWebSearchToolInput : Json → Except String WebSearchToolInput
  | Json.obj fields =>
    match fields.lookup "query" with
    | some (Json.str q) => Except.ok ⟨q⟩
    | some _ => Except.error "invalid type for field query"
    | none => Except.error "missing field query"
  | _ => Except.error "expected object"

/-- `WebSearchCitation` from `zed_llm_client`: one search-result entry. -/
structure Citation where
  title : String
  url : String
deriving DecidableEq, Repr

/-- `WebSearchResponse` from `zed_llm_client`: ordered citations. -/
structure WebSearchResponse where
  citations : List Citation
deriving DecidableEq, Repr

/-- Serialization of one citation (`serde::Serialize` derive), at the
structured-value level. -/
def Citation.toJson (c : Citation) : Json :=
  Json.obj [("title", Json.str c.title), ("url", Json.str c.url)]

/-- Deserialization of one citation (`serde::Deserialize` derive). -/
def Citation.fromJson : Json → Except String Citation
  | Json.obj fields =>
    match fields.lookup "title", fields.lookup "url" with
    | some (Json.str t), some (Json.str u) => Except.ok ⟨t, u⟩
    | _, _ => Except.error "invalid citation"
  | _ => Except.error "expected object"

/-- Deserialization of a citation sequence, element by element in order. -/
def citationsFromJson : List Json → Except String (List Citation)
  | [] => Except.ok []
  | x :: xs => do
    let c ← Citation.fromJson x
    let cs ← citationsFromJson xs
    Except.ok (c :: cs)

/-- Serialization of the structured response (`serde_json::to_string`,
modelled at the structured-value level). -/
def WebSearchResponse.toJson (r : WebSearchResponse) : Json :=
  Json.obj [("citations", Json.arr (r.citations.map Citation.toJson))]

/-- Deserialization of the structured response. -/
def WebSearchResponse.fromJson : Json → Except String WebSearchResponse
  | Json.obj fields =>
    match fields.lookup "citations" with
    | some (Json.arr xs) => (citationsFromJson xs).map WebSearchResponse.mk
    | some _ => Except.error "invalid type for field citations"
    | none => Except.error "missing field citations"
  | _ => Except.error "expected object"

/-- The outcome the provider's asynchronous search eventually produces:
a structured response, or an error carrying a human-readable message
(the `Arc<anyhow::Error>` after `map_err(Arc::new)`, identified by its
message). -/
abbrev ProviderOutcome : Type := Except String WebSearchResponse

/-- A search provider, as handed out by `WebSearchRegistry::active_provider`:
`search` gives the eventual result of the provider call for a query. -/
structure Provider where
  search : String → ProviderOutcome

/-- The shared search computation (`provider.search(..).map_err(Arc::new).shared()`):
a memoizing cell over the single underlying provider call. `underlying` is
the outcome the provider call produces when it actually runs; `cache`
holds the resolved outcome once the computation has run. -/
structure SharedFuture where
  underlying : ProviderOutcome
  cache : Option ProviderOutcome
deriving Repr

/-- A freshly created shared computation: not yet resolved. -/
def SharedFuture.mk0 (u : ProviderOutcome) : SharedFuture := ⟨u, none⟩

/-- Instrumentation counting how many times the underlying provider call
has actually been executed. -/
structure SearchWorld where
  providerCalls : Nat
deriving DecidableEq, Repr

/-- Awaiting the shared computation: the first await executes the
underlying provider call (counting one execution) and caches its
outcome; every later await reads the cache without re-executing. -/
def SharedFuture.await : SharedFuture → SearchWorld → ProviderOutcome × SharedFuture × SearchWorld
  | ⟨u, some v⟩, w => (v, ⟨u, some v⟩, w)
  | ⟨u, none⟩, w => (u, ⟨u, some u⟩, ⟨w.providerCalls + 1⟩)

/-- A sequence of `n` independent awaits of the same shared computation,
threading the cell's state: models `n` consumers each awaiting the
shared handle. -/
def awaitN : Nat → SharedFuture → SearchWorld → List ProviderOutcome × SharedFuture × SearchWorld
  | 0, sh, w => ([], sh, w)
  | n + 1, sh, w =>
    match sh.await w with
    | (r, sh1, w1) =>
      match awaitN n sh1 w1 with
      | (rs, sh2, w2) => (r :: rs, sh2, w2)

/-- `WebSearchToolCard`: view state is `response = none` while pending,
`some (Except.ok _)` once succeeded, `some (Except.error _)` once failed. -/
structure WebSearchToolCard where
  response : Option (Except String WebSearchResponse)
deriving Repr

/-- `WebSearchToolCard::new` before its spawned task completes:
pending, no stored response. -/
def WebSearchToolCard.new : WebSearchToolCard := ⟨none⟩

/-- The body of the card's completion handler
(`this.response = Some(response); cx.notify()`). -/
def WebSearchToolCard.onComplete (c : WebSearchToolCard)
    (response : Except String WebSearchResponse) : WebSearchToolCard :=
  { c with response := some response }

/-- Modelled from the spec: a gpui entity handle (`Entity<T>` /
`WeakEntity<T>` as seen by `this.update(cx, ..)`), whose code lives in
the repository outside `src/`. `alive` records whether the owning view
has been disposed. -/
structure Entity (α : Type) where
  alive : Bool
  value : α
deriving Repr

/-- Modelled from the spec: `this.update(cx, f)` mutates the entity and
reports success when the owner is still alive, and otherwise leaves it
untouched and reports failure (which the caller discards with `.ok()`). -/
def Entity.update (e : Entity α) (f : α → α) : Entity α × Bool :=
  if e.alive then ({ e with value := f e.value }, true) else (e, false)

/-- The task spawned by `WebSearchToolCard::new`: await the shared
computation, then (if the owning view is still alive) store the outcome
in the card and request a redraw; a disposed owner makes the update a
silently dropped no-op. -/
def cardTask (sh : SharedFuture) (e : Entity WebSearchToolCard) (w : SearchWorld) :
    Entity WebSearchToolCard × SharedFuture × SearchWorld :=
  match sh.await w with
  | (r, sh1, w1) => ((e.update (fun c => c.onComplete r)).1, sh1, w1)

/-- The background task spawned by `run` (`cx.background_spawn`): await
the shared computation; on provider failure propagate the error message;
on success serialize the structured response, wrapping a serialization
failure with the context `Failed to serialize search results`. The
serializer is a parameter so that its failure branch can be exercised;
the real one is `serializeResponse`. -/
def bgTask (ser : WebSearchResponse → Except String Json) (sh : SharedFuture)
    (w : SearchWorld) : Except String Json × SharedFuture × SearchWorld :=
  match sh.await w with
  | (Except.error e, sh1, w1) => (Except.error e, sh1, w1)
  | (Except.ok resp, sh1, w1) =>
    match ser resp with
    | Except.ok j => (Except.ok j, sh1, w1)
    | Except.error e =>
      (Except.error ("Failed to serialize search results: " ++ e), sh1, w1)

/-- The serializer the source actually passes to the background task:
`serde_json::to_string(&response)`, at the structured-value level. -/
def serializeResponse (r : WebSearchResponse) : Except String Json :=
  Except.ok r.toJson

/-- The result of `WebSearchTool::run`: either an immediately-ready
error (`Task::ready(Err(..))`, no card, no background work), or a
started invocation whose shared computation is consumed both by the
background task and by the freshly created pending card. -/
inductive RunResult where
  | immediateError (msg : String) : RunResult
  | started (shared : SharedFuture) (card : Entity WebSearchToolCard) : RunResult
deriving Repr

/-- The card of a `ToolResult`: present exactly on the started path. -/
def RunResult.card? : RunResult → Option (Entity WebSearchToolCard)
  | RunResult.immediateError _ => none
  | RunResult.started _ c => some c

/-- Whether `run` spawned any background work. -/
def RunResult.backgroundSpawned : RunResult → Bool
  | RunResult.immediateError _ => false
  | RunResult.started _ _ => true

/-- `WebSearchTool::run`: deserialize the input (failing immediately on
shape mismatch), look up the active provider (failing immediately with
`Web search is not available.` when none is configured), then start the
shared search computation and create the pending card alongside it. -/
def run (input : Json) (activeProvider : Option Provider) : RunResult :=
  match fromValueWebSearchToolInput input with
  | Except.error e => RunResult.immediateError e
  | Except.ok i =>
    match activeProvider with
    | none => RunResult.immediateError "Web search is not available."
    | some provider =>
      RunResult.started (SharedFuture.mk0 (provider.search i.query))
        ⟨true, WebSearchToolCard.new⟩

/-- `WebSearchTool::needs_confirmation`: `false` for every input. -/
def needs_confirmation (_input : Json) : Bool := false

/-- The status text of the card's rendered header, by view state:
pending shows the pulsing `Searching the Web…` label, a failure shows
`Web Search failed`, and a success shows the citation count with
singular wording exactly for one citation
(`if response.citations.len() == 1 { .. } else { .. }`). -/
def headerStatusText : Option (Except String WebSearchResponse) → String
  | some (Except.ok r) =>
    if r.citations.length == 1 then "1 result"
    else Nat.repr r.citations.length ++ " results"
  | some (Except.error _) => "Web Search failed"
  | none => "Searching the Web…"

/-! Helper lemmas about the shared computation. -/

theorem await_cached (u v : ProviderOutcome) (w : SearchWorld) :
    SharedFuture.await ⟨u, some v⟩ w = (v, ⟨u, some v⟩, w) := rfl

theorem await_fresh (u : ProviderOutcome) (w : SearchWorld) :
    SharedFuture.await ⟨u, none⟩ w = (u, ⟨u, some u⟩, ⟨w.providerCalls + 1⟩) := rfl

theorem awaitN_cached (u v : ProviderOutcome) (n : Nat) (w : SearchWorld) :
    awaitN n ⟨u, some v⟩ w = (List.replicate n v, ⟨u, some v⟩, w) := by
  induction n with
  | zero => rfl
  | succ n ih => simp [awaitN, await_cached, ih, List.replicate_succ]

theorem awaitN_mk0 (u : ProviderOutcome) (n : Nat) (w : SearchWorld) :
    awaitN (n + 1) (SharedFuture.mk0 u) w =
      (List.replicate (n + 1) u, ⟨u, some u⟩, ⟨w.providerCalls + 1⟩) := by
  simp [awaitN, SharedFuture.mk0, await_fresh, awaitN_cached, List.replicate_succ]

theorem awaitN_mk0_calls (u : ProviderOutcome) (n : Nat) (w : SearchWorld) :
    (awaitN n (SharedFuture.mk0 u) w).2.2.providerCalls ≤ w.providerCalls + 1 := by
  cases n with
  | zero => simp [awaitN]
  | succ n => rw [awaitN_mk0]

theorem awaitN_mk0_results (u : ProviderOutcome) (n : Nat) (w : SearchWorld) :
    ∀ r ∈ (awaitN n (SharedFuture.mk0 u) w).1, r = u := by
  cases n with
  | zero => intro r hr; simp [awaitN] at hr
  | succ n =>
    intro r hr
    rw [awaitN_mk0] at hr
    exact List.eq_of_mem_replicate hr

/-! Claim theorems. -/

/-- C1: for every invocation that reaches the provider, `run` hands both
consumers one shared computation; however many times it is awaited, the
underlying provider call executes at most once, and every awaiter
receives the identical outcome. -/
theorem run_single_provider_call (input : Json) (p : Provider)
    (i : WebSearchToolInput) (hdec : fromValueWebSearchToolInput input = Except.ok i)
    (n : Nat) (w : SearchWorld) :
    run input (some p) =
      RunResult.started (SharedFuture.mk0 (p.search i.query)) ⟨true, WebSearchToolCard.new⟩ ∧
    (awaitN n (SharedFuture.mk0 (p.search i.query)) w).2.2.providerCalls ≤ w.providerCalls + 1 ∧
    ∀ r ∈ (awaitN n (SharedFuture.mk0 (p.search i.query)) w).1, r = p.search i.query := by
  refine ⟨?_, awaitN_mk0_calls _ _ _, awaitN_mk0_results _ _ _⟩
  simp [run, hdec]

/-- C1 witness: a concrete invocation awaited three times performs at
most one provider call. -/
theorem run_single_provider_call_witness :
    (awaitN 3 (SharedFuture.mk0 (Except.ok ⟨[]⟩)) ⟨0⟩).2.2.providerCalls ≤
      (⟨0⟩ : SearchWorld).providerCalls + 1 :=
  (run_single_provider_call (Json.obj [("query", Json.str "rust")])
    ⟨fun _ => Except.ok ⟨[]⟩⟩ ⟨"rust"⟩ rfl 3 ⟨0⟩).2.1

/-- C3: input that does not decode into `WebSearchToolInput` makes `run`
fail immediately with the deserialization error, for every provider
configuration alike (no provider interaction), with no card and no
background work. -/
theorem run_invalid_input (input : Json) (msg : String)
    (hdec : fromValueWebSearchToolInput input = Except.error msg) :
    ∀ activeProvider : Option Provider,
      run input activeProvider = RunResult.immediateError msg ∧
      (run input activeProvider).card? = none ∧
      (run input activeProvider).backgroundSpawned = false := by
  intro activeProvider
  simp [run, hdec, RunResult.card?, RunResult.backgroundSpawned]

/-- C3 witness: a non-object input fails with the decode error and
yields no card. -/
theorem run_invalid_input_witness :
    run (Json.str "x") none = RunResult.immediateError "expected object" ∧
    (run (Json.str "x") none).card? = none ∧
    (run (Json.str "x") none).backgroundSpawned = false :=
  run_invalid_input (Json.str "x") "expected object" rfl none

/-- C4: with no active provider configured, `run` fails immediately with
the availability error, producing no card and starting no background
work. -/
theorem run_no_active_provider (input : Json) (i : WebSearchToolInput)
    (hdec : fromValueWebSearchToolInput input = Except.ok i) :
    run input none = RunResult.immediateError "Web search is not available." ∧
    (run input none).card? = none ∧
    (run input none).backgroundSpawned = false := by
  simp [run, hdec, RunResult.card?, RunResult.backgroundSpawned]

/-- C4 witness: a well-formed query with no provider yields the
availability error and no card. -/
theorem run_no_active_provider_witness :
    run (Json.obj [("query", Json.str "rust")]) none =
      RunResult.immediateError "Web search is not available." ∧
    (run (Json.obj [("query", Json.str "rust")]) none).card? = none ∧
    (run (Json.obj [("query", Json.str "rust")]) none).backgroundSpawned = false :=
  run_no_active_provider (Json.obj [("query", Json.str "rust")]) ⟨"rust"⟩ rfl

/-- C7: when the owning view has been disposed before the shared
computation resolves, the card's completion update is a dropped no-op:
the entity is unchanged and a pending card stays pending. -/
theorem card_disposed_noop (sh : SharedFuture) (c : WebSearchToolCard) (w : SearchWorld) :
    (cardTask sh ⟨false, c⟩ w).1 = ⟨false, c⟩ ∧
    (cardTask sh ⟨false, WebSearchToolCard.new⟩ w).1.value.response = none := by
  rcases sh with ⟨u, cache⟩
  cases cache <;>
    simp [cardTask, SharedFuture.await, Entity.update, WebSearchToolCard.new]

/-- C10: the tool reports that it needs no user confirmation, for every
input value. -/
theorem needs_confirmation_always_false :
    ∀ input : Json, needs_confirmation input = false := by
  intro input
  rfl

/-- C2: a card starts pending; when its task observes the shared
computation's resolution it stores that outcome; and a duplicate
delivery of the completion (re-running the task on the resulting state)
changes nothing: the stored outcome is terminal. -/
theorem card_state_machine (sh : SharedFuture) (e : Entity WebSearchToolCard)
    (w : SearchWorld) (halive : e.alive = true) (hpending : e.value.response = none) :
    WebSearchToolCard.new.response = none ∧
    (cardTask sh e w).1.value.response = some (sh.await w).1 ∧
    cardTask (cardTask sh e w).2.1 (cardTask sh e w).1 (cardTask sh e w).2.2 =
      cardTask sh e w := by
  rcases sh with ⟨u, cache⟩
  rcases e with ⟨a, ⟨resp⟩⟩
  cases a with
  | false => cases halive
  | true =>
    cases cache <;>
      simp [cardTask, SharedFuture.await, Entity.update, WebSearchToolCard.onComplete,
        WebSearchToolCard.new]

/-- C2 witness: a concrete pending card transitions to the resolved
outcome and a duplicate completion leaves it unchanged. -/
theorem card_state_machine_witness :
    WebSearchToolCard.new.response = none ∧
    (cardTask (SharedFuture.mk0 (Except.ok ⟨[]⟩)) ⟨true, WebSearchToolCard.new⟩ ⟨0⟩).1.value.response =
      some ((SharedFuture.mk0 (Except.ok ⟨[]⟩)).await ⟨0⟩).1 ∧
    cardTask (cardTask (SharedFuture.mk0 (Except.ok ⟨[]⟩)) ⟨true, WebSearchToolCard.new⟩ ⟨0⟩).2.1
        (cardTask (SharedFuture.mk0 (Except.ok ⟨[]⟩)) ⟨true, WebSearchToolCard.new⟩ ⟨0⟩).1
        (cardTask (SharedFuture.mk0 (Except.ok ⟨[]⟩)) ⟨true, WebSearchToolCard.new⟩ ⟨0⟩).2.2 =
      cardTask (SharedFuture.mk0 (Except.ok ⟨[]⟩)) ⟨true, WebSearchToolCard.new⟩ ⟨0⟩ :=
  card_state_machine (SharedFuture.mk0 (Except.ok ⟨[]⟩)) ⟨true, WebSearchToolCard.new⟩ ⟨0⟩ rfl rfl

/-! Serialization round-trip helper lemmas. -/

theorem citation_fromJson_toJson (c : Citation) :
    Citation.fromJson c.toJson = Except.ok c := rfl

theorem citationsFromJson_map (cs : List Citation) :
    citationsFromJson (cs.map Citation.toJson) = Except.ok cs := by
  induction cs with
  | nil => rfl
  | cons c cs ih =>
    simp only [List.map_cons, citationsFromJson, citation_fromJson_toJson, ih]
    rfl

theorem response_fromJson_toJson (r : WebSearchResponse) :
    WebSearchResponse.fromJson r.toJson = Except.ok r := by
  rcases r with ⟨cs⟩
  simp [WebSearchResponse.toJson, WebSearchResponse.fromJson, List.lookup,
    citationsFromJson_map, Except.map]

/-- C5: when the provider resolves to a response, the background path
serializes exactly that response (deserializing its payload recovers the
same citations in the same order) and the card transitions to succeeded
storing the same response: the two consumers agree. -/
theorem search_results_roundtrip (input : Json) (p : Provider)
    (i : WebSearchToolInput) (r : WebSearchResponse)
    (hdec : fromValueWebSearchToolInput input = Except.ok i)
    (hp : p.search i.query = Except.ok r) (w : SearchWorld) :
    run input (some p) =
      RunResult.started (SharedFuture.mk0 (Except.ok r)) ⟨true, WebSearchToolCard.new⟩ ∧
    (bgTask serializeResponse (SharedFuture.mk0 (Except.ok r)) w).1 = Except.ok r.toJson ∧
    WebSearchResponse.fromJson r.toJson = Except.ok r ∧
    (cardTask (SharedFuture.mk0 (Except.ok r)) ⟨true, WebSearchToolCard.new⟩ w).1.value.response =
      some (Except.ok r) := by
  refine ⟨?_, ?_, response_fromJson_toJson r, ?_⟩
  · simp [run, hdec, hp]
  · simp [bgTask, SharedFuture.mk0, SharedFuture.await, serializeResponse]
  · simp [cardTask, SharedFuture.mk0, SharedFuture.await, Entity.update,
      WebSearchToolCard.onComplete, WebSearchToolCard.new]

/-- C5 witness: a concrete one-citation response round-trips through the
background path's serialized payload. -/
theorem search_results_roundtrip_witness :
    WebSearchResponse.fromJson (WebSearchResponse.mk [⟨"Zed", "https://zed.dev"⟩]).toJson =
      Except.ok (WebSearchResponse.mk [⟨"Zed", "https://zed.dev"⟩]) :=
  (search_results_roundtrip (Json.obj [("query", Json.str "zed")])
    ⟨fun _ => Except.ok ⟨[⟨"Zed", "https://zed.dev"⟩]⟩⟩ ⟨"zed"⟩
    ⟨[⟨"Zed", "https://zed.dev"⟩]⟩ rfl rfl ⟨0⟩).2.2.1

/-- C6: when the provider fails with a message, the background result
and the card's failed state both carry exactly that message, derived
from the one shared error: the two failure presentations agree. -/
theorem provider_failure_shared_error (input : Json) (p : Provider)
    (i : WebSearchToolInput) (msg : String)
    (hdec : fromValueWebSearchToolInput input = Except.ok i)
    (hp : p.search i.query = Except.error msg) (w : SearchWorld) :
    run input (some p) =
      RunResult.started (SharedFuture.mk0 (Except.error msg)) ⟨true, WebSearchToolCard.new⟩ ∧
    (bgTask serializeResponse (SharedFuture.mk0 (Except.error msg)) w).1 = Except.error msg ∧
    (cardTask (SharedFuture.mk0 (Except.error msg)) ⟨true, WebSearchToolCard.new⟩ w).1.value.response =
      some (Except.error msg) := by
  refine ⟨?_, ?_, ?_⟩
  · simp [run, hdec, hp]
  · simp [bgTask, SharedFuture.mk0, SharedFuture.await]
  · simp [cardTask, SharedFuture.mk0, SharedFuture.await, Entity.update,
      WebSearchToolCard.onComplete, WebSearchToolCard.new]

/-- C6 witness: a provider failing with `rate limited` puts exactly that
message in the background result and in the card's failed state. -/
theorem provider_failure_shared_error_witness :
    (bgTask serializeResponse (SharedFuture.mk0 (Except.error "rate limited")) ⟨0⟩).1 =
      Except.error "rate limited" ∧
    (cardTask (SharedFuture.mk0 (Except.error "rate limited"))
        ⟨true, WebSearchToolCard.new⟩ ⟨0⟩).1.value.response =
      some (Except.error "rate limited") :=
  ⟨(provider_failure_shared_error (Json.obj [("query", Json.str "zed")])
      ⟨fun _ => Except.error "rate limited"⟩ ⟨"zed"⟩ "rate limited" rfl rfl ⟨0⟩).2.1,
   (provider_failure_shared_error (Json.obj [("query", Json.str "zed")])
      ⟨fun _ => Except.error "rate limited"⟩ ⟨"zed"⟩ "rate limited" rfl rfl ⟨0⟩).2.2⟩

/-- C9: when serialization of the structured response fails, the
background path resolves to the wrapped serialization error, while the
card still transitions to succeeded with the structured response and
renders its succeeded header. -/
theorem serialization_failure_card_unaffected (input : Json) (p : Provider)
    (i : WebSearchToolInput) (r : WebSearchResponse) (emsg : String)
    (ser : WebSearchResponse → Except String Json)
    (hdec : fromValueWebSearchToolInput input = Except.ok i)
    (hp : p.search i.query = Except.ok r) (hser : ser r = Except.error emsg)
    (w : SearchWorld) :
    run input (some p) =
      RunResult.started (SharedFuture.mk0 (Except.ok r)) ⟨true, WebSearchToolCard.new⟩ ∧
    (bgTask ser (SharedFuture.mk0 (Except.ok r)) w).1 =
      Except.error ("Failed to serialize search results: " ++ emsg) ∧
    (cardTask (SharedFuture.mk0 (Except.ok r)) ⟨true, WebSearchToolCard.new⟩ w).1.value.response =
      some (Except.ok r) ∧
    headerStatusText
        ((cardTask (SharedFuture.mk0 (Except.ok r)) ⟨true, WebSearchToolCard.new⟩ w).1.value.response) =
      headerStatusText (some (Except.ok r)) := by
  refine ⟨?_, ?_, ?_, ?_⟩
  · simp [run, hdec, hp]
  · simp [bgTask, SharedFuture.mk0, SharedFuture.await, hser]
  · simp [cardTask, SharedFuture.mk0, SharedFuture.await, Entity.update,
      WebSearchToolCard.onComplete, WebSearchToolCard.new]
  · simp [cardTask, SharedFuture.mk0, SharedFuture.await, Entity.update,
      WebSearchToolCard.onComplete, WebSearchToolCard.new]

/-- C9 witness: a failing serializer yields the wrapped background error
while the card holds the structured response. -/
theorem serialization_failure_card_unaffected_witness :
    (bgTask (fun _ => Except.error "boom") (SharedFuture.mk0 (Except.ok ⟨[]⟩)) ⟨0⟩).1 =
      Except.error ("Failed to serialize search results: " ++ "boom") ∧
    (cardTask (SharedFuture.mk0 (Except.ok ⟨[]⟩))
        ⟨true, WebSearchToolCard.new⟩ ⟨0⟩).1.value.response =
      some (Except.ok ⟨[]⟩) :=
  ⟨(serialization_failure_card_unaffected (Json.obj [("query", Json.str "zed")])
      ⟨fun _ => Except.ok ⟨[]⟩⟩ ⟨"zed"⟩ ⟨[]⟩ "boom" (fun _ => Except.error "boom")
      rfl rfl rfl ⟨0⟩).2.1,
   (serialization_failure_card_unaffected (Json.obj [("query", Json.str "zed")])
      ⟨fun _ => Except.ok ⟨[]⟩⟩ ⟨"zed"⟩ ⟨[]⟩ "boom" (fun _ => Except.error "boom")
      rfl rfl rfl ⟨0⟩).2.2.1⟩

/-! Header-wording helper lemma. -/

theorem repr_results_ne_one_result (n : Nat) :
    Nat.repr n ++ " results" ≠ "1 result" := by
  intro h
  have hd : (Nat.repr n).data ++ (" results").data = ("1 result").data := by
    have h2 := congrArg String.data h
    rwa [String.data_append] at h2
  have hlen := congrArg List.length hd
  rw [List.length_append] at hlen
  have h8 : (" results").data.length = 8 := by decide
  have h8t : ("1 result").data.length = 8 := by decide
  rw [h8, h8t] at hlen
  have hnil : (Nat.repr n).data = [] := List.eq_nil_of_length_eq_zero (by omega)
  rw [hnil, List.nil_append] at hd
  exact absurd hd (by decide)

/-- C8: the succeeded header uses the singular wording exactly when the
citation count is one, and the count-with-plural wording otherwise. -/
theorem header_citation_wording (r : WebSearchResponse) :
    (headerStatusText (some (Except.ok r)) = "1 result" ↔ r.citations.length = 1) ∧
    (r.citations.length ≠ 1 →
      headerStatusText (some (Except.ok r)) = Nat.repr r.citations.length ++ " results") := by
  have hval : headerStatusText (some (Except.ok r)) =
      if r.citations.length = 1 then "1 result"
      else Nat.repr r.citations.length ++ " results" := by
    simp [headerStatusText]
  constructor
  · constructor
    · intro h
      by_contra hne
      rw [hval, if_neg hne] at h
      exact repr_results_ne_one_result _ h
    · intro h1
      rw [hval, if_pos h1]
  · intro hne
    rw [hval, if_neg hne]

/-- C8 witness: one citation renders the singular wording, and zero and
two citations render the count-with-plural wording. -/
theorem header_citation_wording_witness :
    headerStatusText (some (Except.ok ⟨[⟨"t", "u"⟩]⟩)) = "1 result" ∧
    headerStatusText (some (Except.ok (⟨[]⟩ : WebSearchResponse))) =
      Nat.repr 0 ++ " results" ∧
    headerStatusText (some (Except.ok ⟨[⟨"a", "b"⟩, ⟨"c", "d"⟩]⟩)) =
      Nat.repr 2 ++ " results" :=
  ⟨(header_citation_wording ⟨[⟨"t", "u"⟩]⟩).1.mpr rfl,
   (header_citation_wording ⟨[]⟩).2 (by decide),
   (header_citation_wording ⟨[⟨"a", "b"⟩, ⟨"c", "d"⟩]⟩).2 (by decide)⟩

end WebSearch
